import Mathlib

/-!
Verification development for the market-data ingestion pipeline
(`pipeline.py`, `process_papers_json.py`, `data_quality_tests.py`).

The Python code manipulates JSON dictionaries.  Each dictionary key used by
the code is embedded as a field of a Lean structure whose type is `Jf α`:
a JSON field is either absent (key missing), null (key present with value
`None`), or present with a schema-typed value.  This mirrors exactly the
distinctions the Python code can observe through `dict.get`.
-/

/-- A JSON field: absent key, explicit null, or a typed value. -/
inductive Jf (α : Type) where
  | absent : Jf α
  | null : Jf α
  | val (a : α) : Jf α
deriving DecidableEq

namespace Jf

/-- `paper.get(k)`: `None` for an absent or null field, the value otherwise.
Since Python `None` and "no useful value" coincide downstream, both map to
`Option.none`. -/
def get : Jf α → Option α
  | .absent => none
  | .null => none
  | .val a => some a

/-- `paper.get(k, d)`: the default only replaces an *absent* key; an explicit
null is returned as `None` (so the default does not apply). -/
def getD (f : Jf α) (d : α) : Option α :=
  match f with
  | .absent => some d
  | .null => none
  | .val a => some a

/-- `paper.get(k) or d`: Python truthiness replaces `None` (and the falsy
empty container, which is extensionally the same as the supplied empty
default) by `d`. -/
def orD (f : Jf α) (d : α) : α :=
  match f with
  | .val a => a
  | _ => d

/-- Truthy string access: `paper.get(k)` used in a boolean context.  `None`
and the empty string are falsy; any other string is returned. -/
def truthyStr : Jf String → Option String
  | .val s => if s = "" then none else some s
  | _ => none

end Jf

/-- `primary_location.source` sub-object (journal metadata). -/
structure JSource where
  display_name : Jf String
  issn_l : Jf String
  is_oa : Jf Bool
  is_indexed_in_scopus : Jf Bool
  is_core : Jf Bool
  host_organization_name : Jf String
deriving DecidableEq

/-- `primary_location` sub-object. -/
structure JPrimaryLocation where
  is_oa : Jf Bool
  oa_status : Jf String
  pdf_url : Jf String
  source : Jf JSource
deriving DecidableEq

/-- `topics[i].subfield` / `.field` / `.domain` sub-object. -/
structure JTopicLevel where
  display_name : Jf String
deriving DecidableEq

/-- One element of the `topics` list. -/
structure JTopic where
  display_name : Jf String
  score : Jf Rat
  subfield : Jf JTopicLevel
  field : Jf JTopicLevel
  domain : Jf JTopicLevel
deriving DecidableEq

/-- `citation_metrics` sub-object. -/
structure JCitationMetrics where
  normalized_percentile : Jf Rat
  is_in_top_1_percent : Jf Bool
  is_in_top_10_percent : Jf Bool
deriving DecidableEq

/-- One element of an authorship's `institutions` list (elements may be
null, which the code guards with `if inst`). -/
structure JInstitution where
  id : Jf String
deriving DecidableEq

/-- One element of the `authorships` list (elements may be null, which the
code guards with `if author`); hence lists of `Option JAuthorship` below. -/
structure JAuthorship where
  country_code : Jf String
  institutions : Jf (List (Option JInstitution))
deriving DecidableEq

/-- `ids` sub-object. -/
structure JIds where
  openalex : Jf String
deriving DecidableEq

/-- A raw source record, with exactly the keys the transformation reads. -/
structure RawPaper where
  id : Jf String
  doi : Jf String
  title : Jf String
  display_name : Jf String
  publication_year : Jf Int
  publication_date : Jf String
  created_date : Jf String
  updated_date : Jf String
  language : Jf String
  type : Jf String
  type_crossref : Jf String
  primary_location : Jf JPrimaryLocation
  topics : Jf (List JTopic)
  citation_metrics : Jf JCitationMetrics
  authorships : Jf (List (Option JAuthorship))
  referenced_works : Jf (List String)
  cited_by_count : Jf Int
  is_retracted : Jf Bool
  is_paratext : Jf Bool
  has_fulltext : Jf Bool
  ids : Jf JIds
deriving DecidableEq

/-- The normalized record built by `transform_paper_data`, one field per
key of the `transformed` dictionary, in source order.  `Option` models SQL
nullability: `none` is inserted as NULL.  The DB-maintained timestamp
columns (`created_at`/`updated_at`), which no claim mentions and which are
filled from the database clock, are not modelled. -/
structure Transformed where
  id : String
  doi : Option String
  title : Option String
  display_name : Option String
  publication_year : Option Int
  publication_date : Option String
  created_date : Option String
  updated_date : Option String
  language : Option String
  paper_type : Option String
  type_crossref : Option String
  is_open_access : Option Bool
  oa_status : Option String
  oa_url : Option String
  cited_by_count : Option Int
  referenced_works_count : Nat
  authors_count : Nat
  countries_distinct_count : Nat
  institutions_distinct_count : Nat
  citation_normalized_percentile : Option Rat
  is_in_top_1_percent : Option Bool
  is_in_top_10_percent : Option Bool
  journal_name : Option String
  journal_issn : Option String
  journal_is_oa : Option Bool
  journal_is_indexed_scopus : Option Bool
  journal_is_core : Option Bool
  journal_host_organization : Option String
  primary_topic_name : Option String
  primary_topic_score : Option Rat
  primary_subfield_name : Option String
  primary_field_name : Option String
  primary_domain_name : Option String
  is_retracted : Option Bool
  is_paratext : Option Bool
  has_fulltext : Option Bool
deriving DecidableEq

/-- Empty `primary_location` (the `or \x7b\x7d` default). -/
def emptyPL : JPrimaryLocation := ⟨.absent, .absent, .absent, .absent⟩

/-- Empty `source`. -/
def emptySource : JSource := ⟨.absent, .absent, .absent, .absent, .absent, .absent⟩

/-- Empty topic (the `topics[0] if topics else \x7b\x7d` default). -/
def emptyTopic : JTopic := ⟨.absent, .absent, .absent, .absent, .absent⟩

/-- Empty topic level. -/
def emptyTL : JTopicLevel := ⟨.absent⟩

/-- Empty `citation_metrics`. -/
def emptyCM : JCitationMetrics := ⟨.absent, .absent, .absent⟩

/-- The country-code extraction of the generator expression
`author.get(country_code) for author in authorships
 if author and author.get(country_code)`:
null authors are dropped by the `if author` guard, and only truthy
(non-null, non-empty) country codes pass the second guard. -/
def authorCountryCodes (auths : List (Option JAuthorship)) : List String :=
  auths.filterMap fun a? =>
    match a? with
    | none => none
    | some a => a.country_code.truthyStr

/-- The institution-id extraction of the generator expression
`inst.get(id) for author in authorships if author and author.get(institutions)
 for inst in author.get(institutions) or [] if inst and inst.get(id)`:
null authors and null institutions are dropped, and only truthy institution
ids pass.  (The `author.get(institutions)` truthiness guard also drops an
*empty* institutions list, which contributes nothing either way.) -/
def institutionIds (auths : List (Option JAuthorship)) : List String :=
  auths.flatMap fun a? =>
    match a? with
    | none => []
    | some a =>
      match a.institutions with
      | .val l => l.filterMap fun i? =>
          match i? with
          | none => none
          | some i => i.id.truthyStr
      | _ => []

/-!
A textual serialization of a raw record, modelling Python's `str(paper)`
(used only inside the fallback identifier `f"fallback_\x7bhash(str(paper))\x7d"`).
Absent keys do not appear in `str(dict)`; null prints as `None`; values
print with a marker.  The claims depend only on this being a deterministic
function of the record, so the rendering is kept simple.
-/

/-- Render a string-valued JSON field. -/
def reprJfS : Jf String → String
  | .absent => "_"
  | .null => "None"
  | .val s => "V" ++ s ++ ";"

/-- Render a Bool-valued JSON field. -/
def reprJfB : Jf Bool → String
  | .absent => "_"
  | .null => "None"
  | .val b => "V" ++ toString b ++ ";"

/-- Render an Int-valued JSON field. -/
def reprJfI : Jf Int → String
  | .absent => "_"
  | .null => "None"
  | .val n => "V" ++ toString n ++ ";"

/-- Render a Rat-valued JSON field. -/
def reprJfQ : Jf Rat → String
  | .absent => "_"
  | .null => "None"
  | .val q => "V" ++ toString q.num ++ ":" ++ toString q.den ++ ";"

/-- Render a list field given an element renderer. -/
def reprJfList (r : α → String) : Jf (List α) → String
  | .absent => "_"
  | .null => "None"
  | .val l => "[" ++ l.foldl (fun acc a => acc ++ r a ++ ",") "" ++ "]"

/-- Render a nested-object field given an object renderer. -/
def reprJfObj (r : α → String) : Jf α → String
  | .absent => "_"
  | .null => "None"
  | .val a => r a

/-- Render an optional (possibly-null) list element. -/
def reprOptObj (r : α → String) : Option α → String
  | none => "None"
  | some a => r a

/-- Render a `source` object. -/
def reprSource (s : JSource) : String :=
  reprJfS s.display_name ++ reprJfS s.issn_l ++ reprJfB s.is_oa ++
    reprJfB s.is_indexed_in_scopus ++ reprJfB s.is_core ++
    reprJfS s.host_organization_name

/-- Render a `primary_location` object. -/
def reprPL (p : JPrimaryLocation) : String :=
  reprJfB p.is_oa ++ reprJfS p.oa_status ++ reprJfS p.pdf_url ++
    reprJfObj reprSource p.source

/-- Render a topic-level object. -/
def reprTL (t : JTopicLevel) : String := reprJfS t.display_name

/-- Render a topic object. -/
def reprTopic (t : JTopic) : String :=
  reprJfS t.display_name ++ reprJfQ t.score ++ reprJfObj reprTL t.subfield ++
    reprJfObj reprTL t.field ++ reprJfObj reprTL t.domain

/-- Render a `citation_metrics` object. -/
def reprCM (c : JCitationMetrics) : String :=
  reprJfQ c.normalized_percentile ++ reprJfB c.is_in_top_1_percent ++
    reprJfB c.is_in_top_10_percent

/-- Render an institution object. -/
def reprInst (i : JInstitution) : String := reprJfS i.id

/-- Render an authorship object. -/
def reprAuthorship (a : JAuthorship) : String :=
  reprJfS a.country_code ++
    reprJfList (reprOptObj reprInst) a.institutions

/-- Render an `ids` object. -/
def reprIds (i : JIds) : String := reprJfS i.openalex

/-- Serialization of a whole raw record, modelling `str(paper)`. -/
def strRepr (p : RawPaper) : String :=
  reprJfS p.id ++ reprJfS p.doi ++ reprJfS p.title ++ reprJfS p.display_name ++
    reprJfI p.publication_year ++ reprJfS p.publication_date ++
    reprJfS p.created_date ++ reprJfS p.updated_date ++ reprJfS p.language ++
    reprJfS p.type ++ reprJfS p.type_crossref ++
    reprJfObj reprPL p.primary_location ++
    reprJfList reprTopic p.topics ++
    reprJfObj reprCM p.citation_metrics ++
    reprJfList (reprOptObj reprAuthorship) p.authorships ++
    reprJfList (fun s => "V" ++ s ++ ";") p.referenced_works ++
    reprJfI p.cited_by_count ++ reprJfB p.is_retracted ++
    reprJfB p.is_paratext ++ reprJfB p.has_fulltext ++
    reprJfObj reprIds p.ids

/-- Models Python's built-in `hash` on the serialized record: an otherwise
unspecified, deterministic, integer-valued function of the string.  (CPython
salts its string hash per process; within one run — the only scope in which
the pipeline uses it — it is a fixed function, which is what is embedded.) -/
def pyHash (s : String) : Nat :=
  s.foldl (fun h c => (h * 131 + c.toNat) % 2305843009213693951) 5381

/-- The fallback identifier `f"fallback_\x7bhash(str(paper))\x7d"`. -/
def pyFallbackId (p : RawPaper) : String :=
  "fallback_" ++ toString (pyHash (strRepr p))

namespace MarketDataPipeline

/-- `MarketDataPipeline.extract_paper_id`.  Returns `none` exactly when the
Python code raises: `paper.get(ids, \x7b\x7d)` substitutes the empty dict only
for an *absent* `ids` key, so a present-but-null `ids` reaches
`None.get(openalex)` and raises `AttributeError`. -/
def extract_paper_id (p : RawPaper) : Option String :=
  match p.id.truthyStr with
  | some s => some s
  | none =>
    match p.doi.truthyStr with
    | some s => some s
    | none =>
      match p.ids with
      | .null => none
      | .absent => some (pyFallbackId p)
      | .val i =>
        match i.openalex.truthyStr with
        | some s => some s
        | none => some (pyFallbackId p)

/-- The body of `MarketDataPipeline.transform_paper_data` after the call to
`extract_paper_id` (which is the only part of the function that can raise):
a total function of the resolved id and the raw record. -/
def transformWith (paper_id : String) (paper : RawPaper) : Transformed :=
  let primary_location := paper.primary_location.orD emptyPL
  let source := primary_location.source.orD emptySource
  let topics := paper.topics.orD []
  let primary_topic := match topics with
    | [] => emptyTopic
    | t :: _ => t
  let subfield := primary_topic.subfield.orD emptyTL
  let field := primary_topic.field.orD emptyTL
  let domain := primary_topic.domain.orD emptyTL
  let citation_metrics := paper.citation_metrics.orD emptyCM
  let authorships := paper.authorships.orD []
  let referenced_works := paper.referenced_works.orD []
  { id := paper_id
    doi := paper.doi.get
    title := match paper.title.truthyStr with
      | some t => some t
      | none => paper.display_name.get
    display_name := paper.display_name.get
    publication_year := paper.publication_year.get
    publication_date := paper.publication_date.get
    created_date := paper.created_date.get
    updated_date := paper.updated_date.get
    language := paper.language.get
    paper_type := paper.type.get
    type_crossref := paper.type_crossref.get
    is_open_access := primary_location.is_oa.get
    oa_status := primary_location.oa_status.get
    oa_url := primary_location.pdf_url.get
    cited_by_count := paper.cited_by_count.getD 0
    referenced_works_count := referenced_works.length
    authors_count := authorships.length
    countries_distinct_count := (authorCountryCodes authorships).dedup.length
    institutions_distinct_count := (institutionIds authorships).dedup.length
    citation_normalized_percentile := citation_metrics.normalized_percentile.get
    is_in_top_1_percent := citation_metrics.is_in_top_1_percent.getD false
    is_in_top_10_percent := citation_metrics.is_in_top_10_percent.getD false
    journal_name := source.display_name.get
    journal_issn := source.issn_l.get
    journal_is_oa := source.is_oa.get
    journal_is_indexed_scopus := source.is_indexed_in_scopus.get
    journal_is_core := source.is_core.get
    journal_host_organization := source.host_organization_name.get
    primary_topic_name := primary_topic.display_name.get
    primary_topic_score := primary_topic.score.get
    primary_subfield_name := subfield.display_name.get
    primary_field_name := field.display_name.get
    primary_domain_name := domain.display_name.get
    is_retracted := paper.is_retracted.getD false
    is_paratext := paper.is_paratext.getD false
    has_fulltext := paper.has_fulltext.getD false }

/-- `MarketDataPipeline.transform_paper_data`: extract the id (the one
fallible step), then build the normalized record.  `none` models the
`AttributeError` escaping the function. -/
def transform_paper_data (paper : RawPaper) : Option Transformed :=
  (extract_paper_id paper).map fun pid => transformWith pid paper

end MarketDataPipeline

/-- A raw record with every key absent: the empty document. -/
def emptyRaw : RawPaper :=
  ⟨.absent, .absent, .absent, .absent, .absent, .absent, .absent, .absent,
   .absent, .absent, .absent, .absent, .absent, .absent, .absent, .absent,
   .absent, .absent, .absent, .absent, .absent⟩

example : (MarketDataPipeline.transform_paper_data emptyRaw).isSome = true := by decide

/-!
The `papers` table.  A row is exactly the `Transformed` record (the insert
statement passes the transformed values positionally).  The table is keyed
by the `id` column (primary key, `ON CONFLICT (id)`), modelled as an
association list from id to row.
-/

/-- The persisted `papers` table. -/
abbrev Store : Type := List (String × Transformed)

/-- `SELECT ... FROM papers WHERE id = pid` (first matching row). -/
def dbLookup (db : Store) (pid : String) : Option Transformed :=
  match db with
  | [] => none
  | (k, v) :: rest => if k = pid then some v else dbLookup rest pid

/-- Overwrite the row keyed `pid` with `v` (used by the conflict branch). -/
def dbUpdate (db : Store) (pid : String) (v : Transformed) : Store :=
  match db with
  | [] => []
  | (k, w) :: rest =>
    if k = pid then (k, v) :: dbUpdate rest pid v else (k, w) :: dbUpdate rest pid v

namespace MarketDataPipeline

/-- The `ON CONFLICT (id) DO UPDATE SET` clause of `insert_paper`: the
incoming row's volatile fields overwrite the stored row; every field not
named in the clause keeps its stored value.  (The clause also touches the
unmodelled `updated_at` timestamp column.) -/
def applyOnConflict (old incoming : Transformed) : Transformed :=
  { old with
    title := incoming.title
    display_name := incoming.display_name
    publication_year := incoming.publication_year
    publication_date := incoming.publication_date
    cited_by_count := incoming.cited_by_count
    referenced_works_count := incoming.referenced_works_count
    authors_count := incoming.authors_count
    countries_distinct_count := incoming.countries_distinct_count
    institutions_distinct_count := incoming.institutions_distinct_count
    citation_normalized_percentile := incoming.citation_normalized_percentile
    is_in_top_1_percent := incoming.is_in_top_1_percent
    is_in_top_10_percent := incoming.is_in_top_10_percent }

/-- Does some stored row carry this (non-null) doi?  Used for the
`doi VARCHAR(500) UNIQUE` constraint of the `papers` schema
(`create_papers_table.py`). -/
def dbHasDoi (db : Store) (d : String) : Bool :=
  db.any fun e => e.2.doi == some d

/-- The deterministic failure modes of the `insert_paper` SQL statement
against the `papers` schema (`create_papers_table.py`): the incoming tuple
is checked against `title TEXT NOT NULL` before the conflict is resolved
(and the conflict branch sets `title = EXCLUDED.title` anyway), so a null
incoming title always fails; a *fresh* insert also fails when its non-null
doi duplicates a stored row's doi (`doi UNIQUE`).  The conflict branch does
not touch `doi`, so no doi check arises there.  All other columns are
nullable and unconstrained. -/
def insertViolation (db : Store) (row : Transformed) : Bool :=
  if row.title.isNone then true
  else
    match dbLookup db row.id with
    | some _ => false
    | none =>
      match row.doi with
      | none => false
      | some d => dbHasDoi db d

/-- `MarketDataPipeline.insert_paper`: `INSERT ... ON CONFLICT (id) DO
UPDATE`.  A constraint violation makes `cursor.execute` raise; the `except`
branch logs and returns `False` with the store unchanged (the Boolean is
the Python return value).  Otherwise a fresh id appends a row and an
existing id triggers the conflict branch; the statement itself is atomic. -/
def insert_paper (db : Store) (row : Transformed) : Store × Bool :=
  if insertViolation db row then (db, false)
  else
    match dbLookup db row.id with
    | some old => (dbUpdate db row.id (applyOnConflict old row), true)
    | none => (db ++ [(row.id, row)], true)

/-- `MarketDataPipeline.check_paper_exists`.  `queryRaises` models the
`SELECT` raising: the `except` branch logs and returns `False`, so a failed
existence check reports the paper as absent instead of propagating. -/
def check_paper_exists (queryRaises : Bool) (db : Store) (pid : String) : Bool :=
  if queryRaises then false else (dbLookup db pid).isSome

/-- Per-batch counters of `process_papers_batch`. -/
structure BatchStats where
  total : Nat
  inserted : Nat
  updated : Nat
  skipped : Nat
  errors : Nat
deriving DecidableEq

/-- The loop body of `process_papers_batch` over the records of one batch,
running inside one transaction.  `chkErr i` says whether the existence
check's own query raises for the `i`-th record; `aborted` says the
transaction has been poisoned by an earlier failed statement (PostgreSQL
then rejects every further statement in the transaction, so the existence
check raises — returning `False` — and the insert raises — returning
`False`, counted as an error).  The first constraint violation sets
`aborted`.  A record whose transformation raises is caught by the
per-record handler and counted as an error without touching the store. -/
def process_go (chkErr : Nat → Bool) (i : Nat) (db : Store) (aborted : Bool) :
    List RawPaper → BatchStats → Store × Bool × BatchStats
  | [], s => (db, aborted, s)
  | p :: rest, s =>
    match transform_paper_data p with
    | none => process_go chkErr (i + 1) db aborted rest { s with errors := s.errors + 1 }
    | some t =>
      if check_paper_exists (chkErr i || aborted) db t.id then
        process_go chkErr (i + 1) db aborted rest { s with skipped := s.skipped + 1 }
      else if aborted then
        process_go chkErr (i + 1) db true rest { s with errors := s.errors + 1 }
      else
        match insert_paper db t with
        | (db', true) =>
          process_go chkErr (i + 1) db' false rest { s with inserted := s.inserted + 1 }
        | (db', false) =>
          process_go chkErr (i + 1) db' true rest { s with errors := s.errors + 1 }

/-- `MarketDataPipeline.process_papers_batch` (records are enumerated from
1, matching `enumerate(papers, 1)`).  Each batch starts a fresh
transaction, hence `aborted = false`; the returned Boolean says whether the
batch's transaction ended in the aborted state. -/
def process_papers_batch (chkErr : Nat → Bool) (db : Store)
    (papers : List RawPaper) : Store × Bool × BatchStats :=
  process_go chkErr 1 db false papers ⟨papers.length, 0, 0, 0, 0⟩

/-- The slicing `papers[i:i+batch_size] for i in range(0, total, batch_size)`,
fuelled by the list length (with a positive step, at most `total` slices are
taken, each consuming at least one record). -/
def chunkAux (bs : Nat) : Nat → List RawPaper → List (List RawPaper)
  | 0, _ => []
  | _ + 1, [] => []
  | fuel + 1, l => l.take bs :: chunkAux bs fuel (l.drop bs)

/-- Partition the fetched papers into batches of `batchSize`. -/
def chunkList (batchSize : Nat) (papers : List RawPaper) : List (List RawPaper) :=
  if batchSize = 0 then [] else chunkAux batchSize papers.length papers

/-- The batch loop of `upload_papers_to_database`.  Each batch is processed
against the connection's current (uncommitted) view and then committed.
`commitRaises k` models `connection.commit()` raising for the `k`-th batch:
the exception discards the batch's uncommitted writes, is caught by the
surrounding handler, and the function returns `False` — the loop does not
continue.  Committing a transaction that ended aborted does not raise: the
server turns the `COMMIT` into a rollback, discarding the batch's writes,
and the loop continues. -/
def uploadAux (commitRaises : Nat → Bool) (i : Nat) (db : Store) :
    List (List RawPaper) → Store × Bool
  | [] => (db, true)
  | b :: rest =>
    let r := process_papers_batch (fun _ => false) db b
    if commitRaises i then (db, false)
    else uploadAux commitRaises (i + 1) (if r.2.1 then db else r.1) rest

/-- `MarketDataPipeline.upload_papers_to_database`: chunk into batches and
run the commit loop; returns the durably committed store and the success
flag. -/
def upload_papers_to_database (commitRaises : Nat → Bool) (db : Store)
    (papers : List RawPaper) (batchSize : Nat) : Store × Bool :=
  uploadAux commitRaises 0 db (chunkList batchSize papers)

/-- The store after processing and committing a sequence of batches in
order (a batch whose transaction ended aborted is rolled back by its
commit). -/
def commitBatches (db : Store) (bs : List (List RawPaper)) : Store :=
  bs.foldl
    (fun d b =>
      let r := process_papers_batch (fun _ => false) d b
      if r.2.1 then d else r.1)
    db

end MarketDataPipeline

namespace process_papers_json

/-!
The standalone script `process_papers_json.py` carries its own copies of
`extract_paper_id` and `transform_paper_data`.  They are embedded here
separately, line for line from that file, so that the equivalence with the
consolidated pipeline class is a statement about two independently
translated definitions.
-/

/-- `process_papers_json.extract_paper_id` (module-level function). -/
def extract_paper_id (p : RawPaper) : Option String :=
  match p.id.truthyStr with
  | some s => some s
  | none =>
    match p.doi.truthyStr with
    | some s => some s
    | none =>
      match p.ids with
      | .null => none
      | .absent => some (pyFallbackId p)
      | .val i =>
        match i.openalex.truthyStr with
        | some s => some s
        | none => some (pyFallbackId p)

/-- Body of `process_papers_json.transform_paper_data` after id
extraction. -/
def transformWith (paper_id : String) (paper : RawPaper) : Transformed :=
  let primary_location := paper.primary_location.orD emptyPL
  let source := primary_location.source.orD emptySource
  let topics := paper.topics.orD []
  let primary_topic := match topics with
    | [] => emptyTopic
    | t :: _ => t
  let subfield := primary_topic.subfield.orD emptyTL
  let field := primary_topic.field.orD emptyTL
  let domain := primary_topic.domain.orD emptyTL
  let citation_metrics := paper.citation_metrics.orD emptyCM
  let authorships := paper.authorships.orD []
  let referenced_works := paper.referenced_works.orD []
  { id := paper_id
    doi := paper.doi.get
    title := match paper.title.truthyStr with
      | some t => some t
      | none => paper.display_name.get
    display_name := paper.display_name.get
    publication_year := paper.publication_year.get
    publication_date := paper.publication_date.get
    created_date := paper.created_date.get
    updated_date := paper.updated_date.get
    language := paper.language.get
    paper_type := paper.type.get
    type_crossref := paper.type_crossref.get
    is_open_access := primary_location.is_oa.get
    oa_status := primary_location.oa_status.get
    oa_url := primary_location.pdf_url.get
    cited_by_count := paper.cited_by_count.getD 0
    referenced_works_count := referenced_works.length
    authors_count := authorships.length
    countries_distinct_count := (authorCountryCodes authorships).dedup.length
    institutions_distinct_count := (institutionIds authorships).dedup.length
    citation_normalized_percentile := citation_metrics.normalized_percentile.get
    is_in_top_1_percent := citation_metrics.is_in_top_1_percent.getD false
    is_in_top_10_percent := citation_metrics.is_in_top_10_percent.getD false
    journal_name := source.display_name.get
    journal_issn := source.issn_l.get
    journal_is_oa := source.is_oa.get
    journal_is_indexed_scopus := source.is_indexed_in_scopus.get
    journal_is_core := source.is_core.get
    journal_host_organization := source.host_organization_name.get
    primary_topic_name := primary_topic.display_name.get
    primary_topic_score := primary_topic.score.get
    primary_subfield_name := subfield.display_name.get
    primary_field_name := field.display_name.get
    primary_domain_name := domain.display_name.get
    is_retracted := paper.is_retracted.getD false
    is_paratext := paper.is_paratext.getD false
    has_fulltext := paper.has_fulltext.getD false }

/-- `process_papers_json.transform_paper_data` (module-level function). -/
def transform_paper_data (paper : RawPaper) : Option Transformed :=
  (extract_paper_id paper).map fun pid => transformWith pid paper

end process_papers_json

namespace DataQualityTester

/-!
`data_quality_tests.py`: the score-range and citation-count checks run SQL
aggregates over the `papers` table.  They are embedded as counting functions
over the list of stored rows.  A SQL comparison with a NULL operand is not
TRUE, so a `CASE WHEN col < 0` counts only non-null violating values, which
the `Option` match reproduces.
-/

/-- Check status: the `PASS`/`FAIL` strings of the report (`ERROR`, the
status of a check whose own query raised, is outside the modelled happy
path). -/
inductive CheckStatus where
  | PASS : CheckStatus
  | FAIL : CheckStatus
deriving DecidableEq

/-- `COUNT(CASE WHEN primary_topic_score < 0 THEN 1 END)`. -/
def negative_scores (rows : List Transformed) : Nat :=
  (rows.filter fun r =>
    match r.primary_topic_score with
    | some s => decide (s < 0)
    | none => false).length

/-- `COUNT(CASE WHEN primary_topic_score > 1 THEN 1 END)`. -/
def scores_above_one (rows : List Transformed) : Nat :=
  (rows.filter fun r =>
    match r.primary_topic_score with
    | some s => decide (s > 1)
    | none => false).length

/-- `test_score_range_validation`: `PASS` unless
`negative_scores > 0 or scores_above_one > 0`. -/
def score_range_status (rows : List Transformed) : CheckStatus :=
  if negative_scores rows > 0 ∨ scores_above_one rows > 0 then .FAIL else .PASS

/-- `COUNT(CASE WHEN cited_by_count < 0 THEN 1 END)`. -/
def negative_citations (rows : List Transformed) : Nat :=
  (rows.filter fun r =>
    match r.cited_by_count with
    | some c => decide (c < 0)
    | none => false).length

/-- `COUNT(CASE WHEN cited_by_count > 100000 THEN 1 END)`. -/
def extremely_high_citations (rows : List Transformed) : Nat :=
  (rows.filter fun r =>
    match r.cited_by_count with
    | some c => decide (c > 100000)
    | none => false).length

/-- `test_citation_count_validation`: `PASS` unless
`negative_citations > 0 or extremely_high > 0`. -/
def citation_count_status (rows : List Transformed) : CheckStatus :=
  if negative_citations rows > 0 ∨ extremely_high_citations rows > 0 then .FAIL
  else .PASS

end DataQualityTester

/-! Concrete records used by witnesses and counterexamples. -/

/-- A record whose `ids` key is present with value null (and no usable
`id`/`doi`): `\x7b"ids": null\x7d`. -/
def idsNullRaw : RawPaper := { emptyRaw with ids := .null }

/-- A record carrying only a `doi`. -/
def doiOnlyRaw : RawPaper := { emptyRaw with doi := .val "D1" }

/-- Authorships: three authors with country codes `US`, `US`, `FR`. -/
def usUsFrAuths : List (Option JAuthorship) :=
  [some ⟨.val "US", .absent⟩, some ⟨.val "US", .absent⟩, some ⟨.val "FR", .absent⟩]

/-- A record with the `US`, `US`, `FR` authors. -/
def usUsFrRaw : RawPaper := { emptyRaw with authorships := .val usUsFrAuths }

/-- Authorships: one author with institutions
`[\x7bid:"A"\x7d, \x7bid:"A"\x7d, null]`. -/
def instAAAuths : List (Option JAuthorship) :=
  [some ⟨.absent, .val [some ⟨.val "A"⟩, some ⟨.val "A"⟩, none]⟩]

/-- A record with the duplicated-institution author. -/
def instAARaw : RawPaper := { emptyRaw with authorships := .val instAAAuths }

/-- One author whose country code is the empty string. -/
def emptyCodeRaw : RawPaper :=
  { emptyRaw with authorships := .val [some ⟨.val "", .absent⟩] }

/-- The row a record normalizes to when every raw key is absent. -/
def baseRow : Transformed := MarketDataPipeline.transformWith "X" emptyRaw

/-- A stored row with a given primary topic score. -/
def scoreRow (q : Rat) : Transformed := { baseRow with primary_topic_score := some q }

/-- A stored row with a given citation count. -/
def citRow (c : Int) : Transformed := { baseRow with cited_by_count := some c }

/-- The count the claim attributes to the code: distinct **non-null**
country codes (the code instead counts distinct *truthy* codes, which also
drops empty strings). -/
def claimedDistinctCountries (auths : List (Option JAuthorship)) : Nat :=
  (auths.filterMap fun a? => a?.bind fun a => a.country_code.get).dedup.length

/-- C9: the consolidated pipeline class and the standalone JSON-processing
script implement extensionally equal record normalization and id
extraction: `MarketDataPipeline.transform_paper_data` agrees with
`process_papers_json.transform_paper_data` on every record, and likewise
for `extract_paper_id`. -/
theorem pipeline_and_json_script_transform_agree (p : RawPaper) :
    process_papers_json.transform_paper_data p
        = MarketDataPipeline.transform_paper_data p ∧
      process_papers_json.extract_paper_id p
        = MarketDataPipeline.extract_paper_id p :=
  ⟨rfl, rfl⟩

/-- C1: evaluation of the code at the failing input `\x7b"ids": null\x7d`.
`transform_paper_data` raises `AttributeError` (modelled as `none`) because
`paper.get(ids, \x7b\x7d)` substitutes the empty dict only for an absent key,
not for an explicit null, contradicting the contract that normalization
never raises for well-formed JSON with null sub-objects. -/
theorem transform_paper_data_null_ids_attribute_error :
    MarketDataPipeline.transform_paper_data idsNullRaw = none ∧
      MarketDataPipeline.extract_paper_id idsNullRaw = none :=
  ⟨rfl, rfl⟩

/-- The fallback identifier is never the empty string. -/
lemma pyFallbackId_ne_empty (p : RawPaper) : pyFallbackId p ≠ "" := by
  intro h
  have h2 := congrArg String.data h
  simp [pyFallbackId, String.data_append] at h2

/-- C4: the normalized id prefers a usable `raw.id`, then `raw.doi`, then
`raw.ids.openalex`; when all three are absent it is the deterministic
non-empty fallback string derived from the serialized record.  (Usability
is Python truthiness: a present, non-null, non-empty string.) -/
theorem extract_id_preference_order (p : RawPaper) :
    (∀ s, p.id.truthyStr = some s →
        MarketDataPipeline.extract_paper_id p = some s) ∧
      (p.id.truthyStr = none → ∀ s, p.doi.truthyStr = some s →
        MarketDataPipeline.extract_paper_id p = some s) ∧
      (p.id.truthyStr = none → p.doi.truthyStr = none →
        ∀ i s, p.ids = .val i → i.openalex.truthyStr = some s →
          MarketDataPipeline.extract_paper_id p = some s) ∧
      (p.id = .absent → p.doi = .absent → p.ids = .absent →
        MarketDataPipeline.extract_paper_id p = some (pyFallbackId p) ∧
          pyFallbackId p ≠ "") := by
  refine ⟨?_, ?_, ?_, ?_⟩
  · intro s hs
    simp [MarketDataPipeline.extract_paper_id, hs]
  · intro hid s hs
    simp [MarketDataPipeline.extract_paper_id, hid, hs]
  · intro hid hdoi i s hi hs
    simp [MarketDataPipeline.extract_paper_id, hid, hdoi, hi, hs]
  · intro hid hdoi hids
    refine ⟨?_, pyFallbackId_ne_empty p⟩
    simp [MarketDataPipeline.extract_paper_id, hid, hdoi, hids, Jf.truthyStr]

/-- Witness for C4: a record with only a `doi` resolves to that doi, and
the empty record resolves to the non-empty fallback id. -/
theorem extract_id_preference_order_witness :
    MarketDataPipeline.extract_paper_id doiOnlyRaw = some "D1" ∧
      MarketDataPipeline.extract_paper_id emptyRaw = some (pyFallbackId emptyRaw) ∧
      pyFallbackId emptyRaw ≠ "" := by
  have h1 := extract_id_preference_order doiOnlyRaw
  have h2 := extract_id_preference_order emptyRaw
  exact ⟨h1.2.1 rfl "D1" rfl, (h2.2.2.2 rfl rfl rfl).1, (h2.2.2.2 rfl rfl rfl).2⟩

/-- C6: validator boundary values.  A stored score of exactly 1 is not a
range violation while 1.0001 is; a citation count of −1 is a violation
while 0 is not; and each of the two checks reports `PASS` exactly when its
violation count is zero. -/
theorem validator_boundary_values :
    (DataQualityTester.scores_above_one [scoreRow 1] = 0 ∧
        DataQualityTester.negative_scores [scoreRow 1] = 0 ∧
        DataQualityTester.score_range_status [scoreRow 1] = .PASS) ∧
      (DataQualityTester.scores_above_one [scoreRow (mkRat 10001 10000)] = 1 ∧
        DataQualityTester.score_range_status [scoreRow (mkRat 10001 10000)]
          = .FAIL) ∧
      (DataQualityTester.negative_citations [citRow (-1)] = 1 ∧
        DataQualityTester.citation_count_status [citRow (-1)] = .FAIL) ∧
      (DataQualityTester.negative_citations [citRow 0] = 0 ∧
        DataQualityTester.extremely_high_citations [citRow 0] = 0 ∧
        DataQualityTester.citation_count_status [citRow 0] = .PASS) ∧
      (∀ rows, DataQualityTester.score_range_status rows = .PASS ↔
        DataQualityTester.negative_scores rows
          + DataQualityTester.scores_above_one rows = 0) ∧
      (∀ rows, DataQualityTester.citation_count_status rows = .PASS ↔
        DataQualityTester.negative_citations rows
          + DataQualityTester.extremely_high_citations rows = 0) := by
  refine ⟨⟨by decide, by decide, by decide⟩, ⟨by decide, by decide⟩,
    ⟨by decide, by decide⟩, ⟨by decide, by decide, by decide⟩, ?_, ?_⟩
  · intro rows
    have hs : DataQualityTester.score_range_status rows = .PASS ↔
        ¬(DataQualityTester.negative_scores rows > 0 ∨
          DataQualityTester.scores_above_one rows > 0) := by
      unfold DataQualityTester.score_range_status
      split
      · rename_i hsp
        simp [hsp]
      · rename_i hsp
        simp [hsp]
    rw [hs]
    omega
  · intro rows
    have hs : DataQualityTester.citation_count_status rows = .PASS ↔
        ¬(DataQualityTester.negative_citations rows > 0 ∨
          DataQualityTester.extremely_high_citations rows > 0) := by
      unfold DataQualityTester.citation_count_status
      split
      · rename_i hsp
        simp [hsp]
      · rename_i hsp
        simp [hsp]
    rw [hs]
    omega

/-- Counterexample for C7 as stated: the code's distinct-country count uses
Python truthiness, so an author whose `country_code` is the empty string
(well-formed JSON, non-null) is not counted, while "the number of distinct
non-null country codes" counts it. -/
theorem countries_distinct_empty_code_cex :
    (MarketDataPipeline.transformWith "W1" emptyCodeRaw).countries_distinct_count
        = 0 ∧
      claimedDistinctCountries [some ⟨Jf.val "", Jf.absent⟩] = 1 ∧
      (MarketDataPipeline.transformWith "W1" emptyCodeRaw).countries_distinct_count
        ≠ claimedDistinctCountries (emptyCodeRaw.authorships.orD []) := by
  refine ⟨rfl, rfl, ?_⟩
  decide

/-- C7 (amended): the distinct-count fields use set semantics over the
*truthy* (non-null **and non-empty**) keys: distinct truthy country codes
and distinct truthy institution ids; the claim's concrete examples hold and
absent sub-objects contribute zero. -/
theorem distinct_counts_set_semantics (pid : String) (p : RawPaper) :
    (MarketDataPipeline.transformWith pid p).countries_distinct_count
        = (authorCountryCodes (p.authorships.orD [])).toFinset.card ∧
      (MarketDataPipeline.transformWith pid p).institutions_distinct_count
        = (institutionIds (p.authorships.orD [])).toFinset.card ∧
      (MarketDataPipeline.transformWith pid usUsFrRaw).countries_distinct_count
        = 2 ∧
      (MarketDataPipeline.transformWith pid instAARaw).institutions_distinct_count
        = 1 ∧
      (MarketDataPipeline.transformWith pid emptyRaw).countries_distinct_count
        = 0 ∧
      (MarketDataPipeline.transformWith pid emptyRaw).institutions_distinct_count
        = 0 := by
  refine ⟨?_, ?_, rfl, rfl, rfl, rfl⟩
  · simp [MarketDataPipeline.transformWith, List.card_toFinset]
  · simp [MarketDataPipeline.transformWith, List.card_toFinset]

/-- Counterexample for C8 as stated: on the empty document (which omits
`primary_location.is_oa`), the normalized `is_open_access` is null, not
false — the code reads it with a plain `get` that has no `False` default. -/
theorem is_open_access_null_on_omission_cex :
    (MarketDataPipeline.transform_paper_data emptyRaw).map Transformed.is_open_access
        = some none ∧
      (MarketDataPipeline.transform_paper_data emptyRaw).map Transformed.is_open_access
        ≠ some (some false) := by
  constructor
  · rfl
  · decide

/-- C8 (amended): when the source omits the corresponding field, the flags
`is_in_top_1_percent`, `is_in_top_10_percent`, `is_retracted`,
`is_paratext` and `has_fulltext` normalize to `false` (not null) — but
`is_open_access` normalizes to null. -/
theorem boolean_flags_default_false (pid : String) (p : RawPaper) :
    (p.citation_metrics = .absent →
        (MarketDataPipeline.transformWith pid p).is_in_top_1_percent = some false ∧
          (MarketDataPipeline.transformWith pid p).is_in_top_10_percent = some false) ∧
      (∀ c, p.citation_metrics = .val c →
        (c.is_in_top_1_percent = .absent →
          (MarketDataPipeline.transformWith pid p).is_in_top_1_percent = some false) ∧
        (c.is_in_top_10_percent = .absent →
          (MarketDataPipeline.transformWith pid p).is_in_top_10_percent = some false)) ∧
      (p.is_retracted = .absent →
        (MarketDataPipeline.transformWith pid p).is_retracted = some false) ∧
      (p.is_paratext = .absent →
        (MarketDataPipeline.transformWith pid p).is_paratext = some false) ∧
      (p.has_fulltext = .absent →
        (MarketDataPipeline.transformWith pid p).has_fulltext = some false) ∧
      (p.primary_location = .absent →
        (MarketDataPipeline.transformWith pid p).is_open_access = none) ∧
      (∀ pl, p.primary_location = .val pl → pl.is_oa = .absent →
        (MarketDataPipeline.transformWith pid p).is_open_access = none) := by
  refine ⟨?_, ?_, ?_, ?_, ?_, ?_, ?_⟩
  · intro h
    constructor <;>
      simp [MarketDataPipeline.transformWith, h, emptyCM, Jf.orD, Jf.getD]
  · intro c hc
    constructor <;> intro h <;>
      simp [MarketDataPipeline.transformWith, hc, h, Jf.orD, Jf.getD]
  · intro h; simp [MarketDataPipeline.transformWith, h, Jf.getD]
  · intro h; simp [MarketDataPipeline.transformWith, h, Jf.getD]
  · intro h; simp [MarketDataPipeline.transformWith, h, Jf.getD]
  · intro h
    simp [MarketDataPipeline.transformWith, h, emptyPL, Jf.orD, Jf.get]
  · intro pl hpl h
    simp [MarketDataPipeline.transformWith, hpl, h, Jf.orD, Jf.get]

/-- Witness for C8 (amended): the defaults evaluated on the empty
document. -/
theorem boolean_flags_default_false_witness :
    (MarketDataPipeline.transformWith "X" emptyRaw).is_in_top_1_percent = some false ∧
      (MarketDataPipeline.transformWith "X" emptyRaw).is_retracted = some false ∧
      (MarketDataPipeline.transformWith "X" emptyRaw).is_open_access = none := by
  have h := boolean_flags_default_false "X" emptyRaw
  exact ⟨(h.1 rfl).1, h.2.2.1 rfl, h.2.2.2.2.2.1 rfl⟩

/-! Upsert engine: abbreviations and store lemmas. -/

/-- The id a record normalizes to (defined when extraction does not
raise). -/
def tidOf (p : RawPaper) : String :=
  (MarketDataPipeline.extract_paper_id p).getD ""

/-- The row a record normalizes to. -/
def rowOf (p : RawPaper) : Transformed :=
  MarketDataPipeline.transformWith (tidOf p) p

/-- The table entry a record inserts. -/
def entryOf (p : RawPaper) : String × Transformed := (tidOf p, rowOf p)

lemma transform_eq_of_extract {p : RawPaper} {pid : String}
    (h : MarketDataPipeline.extract_paper_id p = some pid) :
    MarketDataPipeline.transform_paper_data p
      = some (MarketDataPipeline.transformWith pid p) := by
  simp [MarketDataPipeline.transform_paper_data, h]

lemma tidOf_eq {p : RawPaper} {pid : String}
    (h : MarketDataPipeline.extract_paper_id p = some pid) : tidOf p = pid := by
  simp [tidOf, h]

lemma dbLookup_append_none (a b : Store) (k : String)
    (ha : dbLookup a k = none) (hb : dbLookup b k = none) :
    dbLookup (a ++ b) k = none := by
  induction a with
  | nil => simpa using hb
  | cons e rest ih =>
    obtain ⟨k', v⟩ := e
    by_cases hk : k' = k
    · simp [dbLookup, hk] at ha
    · simp only [dbLookup, List.cons_append, if_neg hk] at ha ⊢
      exact ih ha

lemma dbLookup_dbUpdate_self (db : Store) (k : String) (v : Transformed)
    (h : (dbLookup db k).isSome) : dbLookup (dbUpdate db k v) k = some v := by
  induction db with
  | nil => simp [dbLookup] at h
  | cons e rest ih =>
    obtain ⟨k', w⟩ := e
    by_cases hk : k' = k
    · simp [dbLookup, dbUpdate, hk]
    · simp only [dbLookup, dbUpdate, if_neg hk] at h ⊢
      exact ih h

lemma dbLookup_map_entryOf_isSome (papers : List RawPaper) (p : RawPaper)
    (hp : p ∈ papers) : (dbLookup (papers.map entryOf) (tidOf p)).isSome := by
  induction papers with
  | nil => cases hp
  | cons q rest ih =>
    by_cases h : tidOf q = tidOf p
    · simp [dbLookup, entryOf, h]
    · rcases List.mem_cons.mp hp with hq | hq
      · exact absurd (hq ▸ rfl) h
      · simp only [List.map_cons, dbLookup, entryOf, if_neg h]
        exact ih hq

lemma rowOf_id (p : RawPaper) : (rowOf p).id = tidOf p := rfl

lemma transform_eq_rowOf {p : RawPaper}
    (h : (MarketDataPipeline.extract_paper_id p).isSome) :
    MarketDataPipeline.transform_paper_data p = some (rowOf p) := by
  obtain ⟨pid, hpid⟩ := Option.isSome_iff_exists.mp h
  rw [transform_eq_of_extract hpid, rowOf, tidOf_eq hpid]

lemma dbHasDoi_append (a b : Store) (d : String) :
    MarketDataPipeline.dbHasDoi (a ++ b) d
      = (MarketDataPipeline.dbHasDoi a d || MarketDataPipeline.dbHasDoi b d) := by
  simp [MarketDataPipeline.dbHasDoi, List.any_append]

lemma dbHasDoi_singleton (e : String × Transformed) (d : String) :
    MarketDataPipeline.dbHasDoi [e] d = (e.2.doi == some d) := by
  simp [MarketDataPipeline.dbHasDoi]

/-- Processing schema-valid records (non-null titles, pairwise-distinct
non-null dois) none of whose ids or dois are in the store, with pairwise
distinct ids, inserts all of them, appending their rows in input order,
with the transaction never aborted. -/
lemma process_go_all_new (papers : List RawPaper) :
    ∀ (i : Nat) (db : Store) (s : MarketDataPipeline.BatchStats),
      (∀ p ∈ papers, (MarketDataPipeline.extract_paper_id p).isSome) →
      (∀ p ∈ papers, (rowOf p).title.isSome) →
      (∀ p ∈ papers, dbLookup db (tidOf p) = none) →
      (∀ p ∈ papers, ∀ d, (rowOf p).doi = some d →
        MarketDataPipeline.dbHasDoi db d = false) →
      (papers.map tidOf).Nodup →
      (papers.filterMap fun r => (rowOf r).doi).Nodup →
      MarketDataPipeline.process_go (fun _ => false) i db false papers s
        = (db ++ papers.map entryOf, false,
            ⟨s.total, s.inserted + papers.length, s.updated, s.skipped, s.errors⟩) := by
  induction papers with
  | nil =>
    intro i db s _ _ _ _ _ _
    cases s
    simp [MarketDataPipeline.process_go]
  | cons p rest ih =>
    intro i db s hsome htitle hfresh hdoifresh hnodup hdoinodup
    obtain ⟨st, si, su, sk, se⟩ := s
    have htr := transform_eq_rowOf (hsome p (by simp))
    have hl : dbLookup db (tidOf p) = none := hfresh p (by simp)
    have hchk : MarketDataPipeline.check_paper_exists ((fun _ : Nat => false) i || false)
        db (rowOf p).id = false := by
      simp [MarketDataPipeline.check_paper_exists, rowOf_id, hl]
    have hviol : MarketDataPipeline.insertViolation db (rowOf p) = false := by
      obtain ⟨tt, htt⟩ := Option.isSome_iff_exists.mp (htitle p (by simp))
      rcases hp0 : (rowOf p).doi with _ | d0
      · simp [MarketDataPipeline.insertViolation, htt, rowOf_id, hl, hp0]
      · simp [MarketDataPipeline.insertViolation, htt, rowOf_id, hl, hp0,
          hdoifresh p (by simp) d0 hp0]
    have hins : MarketDataPipeline.insert_paper db (rowOf p)
        = (db ++ [entryOf p], true) := by
      simp [MarketDataPipeline.insert_paper, hviol, rowOf_id, hl, entryOf]
    have hne : tidOf p ∉ rest.map tidOf := (List.nodup_cons.mp hnodup).1
    have hfresh' : ∀ q ∈ rest, dbLookup (db ++ [entryOf p]) (tidOf q) = none := by
      intro q hq
      refine dbLookup_append_none db [entryOf p] (tidOf q)
        (hfresh q (List.mem_cons_of_mem _ hq)) ?_
      have hqp : tidOf p ≠ tidOf q := by
        intro hqe
        exact hne (hqe ▸ List.mem_map_of_mem tidOf hq)
      simp [dbLookup, entryOf, hqp]
    have hdoinodup' : (rest.filterMap fun r => (rowOf r).doi).Nodup := by
      rcases hp0 : (rowOf p).doi with _ | d0
      · simpa [List.filterMap_cons, hp0] using hdoinodup
      · exact ((List.nodup_cons).mp (by simpa [List.filterMap_cons, hp0]
          using hdoinodup)).2
    have hdoifresh' : ∀ q ∈ rest, ∀ d, (rowOf q).doi = some d →
        MarketDataPipeline.dbHasDoi (db ++ [entryOf p]) d = false := by
      intro q hq d hd
      have h1 : MarketDataPipeline.dbHasDoi db d = false :=
        hdoifresh q (List.mem_cons_of_mem _ hq) d hd
      have h2 : ((rowOf p).doi == some d) = false := by
        rcases hp0 : (rowOf p).doi with _ | d0
        · rfl
        · have hmem : d ∈ rest.filterMap fun r => (rowOf r).doi :=
            List.mem_filterMap.mpr ⟨q, hq, hd⟩
          have hnotmem : d0 ∉ rest.filterMap fun r => (rowOf r).doi :=
            ((List.nodup_cons).mp (by simpa [List.filterMap_cons, hp0]
              using hdoinodup)).1
          have hne0 : d0 ≠ d := fun he => hnotmem (he ▸ hmem)
          simp [hne0]
      rw [dbHasDoi_append, h1, dbHasDoi_singleton, entryOf]
      simpa using h2
    have hstep := ih (i + 1) (db ++ [entryOf p]) ⟨st, si + 1, su, sk, se⟩
      (fun q hq => hsome q (List.mem_cons_of_mem _ hq))
      (fun q hq => htitle q (List.mem_cons_of_mem _ hq)) hfresh' hdoifresh'
      (List.nodup_cons.mp hnodup).2 hdoinodup'
    have hgoal : MarketDataPipeline.process_go (fun _ => false) i db false (p :: rest)
        ⟨st, si, su, sk, se⟩
        = MarketDataPipeline.process_go (fun _ => false) (i + 1) (db ++ [entryOf p])
            false rest ⟨st, si + 1, su, sk, se⟩ := by
      simp only [MarketDataPipeline.process_go, htr, hchk, Bool.false_eq_true,
        if_false, hins]
    rw [hgoal, hstep]
    have h1 : si + 1 + rest.length = si + (rest.length + 1) := by omega
    simp [List.append_assoc, h1]

/-- Processing records all of whose ids are already in the store skips all
of them, leaves the store untouched and never aborts the transaction. -/
lemma process_go_all_existing (papers : List RawPaper) :
    ∀ (i : Nat) (db : Store) (s : MarketDataPipeline.BatchStats),
      (∀ p ∈ papers, (MarketDataPipeline.extract_paper_id p).isSome) →
      (∀ p ∈ papers, (dbLookup db (tidOf p)).isSome) →
      MarketDataPipeline.process_go (fun _ => false) i db false papers s
        = (db, false,
            ⟨s.total, s.inserted, s.updated, s.skipped + papers.length, s.errors⟩) := by
  induction papers with
  | nil =>
    intro i db s _ _
    cases s
    simp [MarketDataPipeline.process_go]
  | cons p rest ih =>
    intro i db s hsome hexist
    obtain ⟨st, si, su, sk, se⟩ := s
    have htr := transform_eq_rowOf (hsome p (by simp))
    have hchk : MarketDataPipeline.check_paper_exists ((fun _ : Nat => false) i || false)
        db (rowOf p).id = true := by
      have hx := hexist p (by simp)
      simpa [MarketDataPipeline.check_paper_exists, rowOf_id] using hx
    have hstep := ih (i + 1) db ⟨st, si, su, sk + 1, se⟩
      (fun q hq => hsome q (List.mem_cons_of_mem _ hq))
      (fun q hq => hexist q (List.mem_cons_of_mem _ hq))
    have hgoal : MarketDataPipeline.process_go (fun _ => false) i db false (p :: rest)
        ⟨st, si, su, sk, se⟩
        = MarketDataPipeline.process_go (fun _ => false) (i + 1) db false rest
            ⟨st, si, su, sk + 1, se⟩ := by
      simp only [MarketDataPipeline.process_go, htr, hchk, if_true]
    rw [hgoal, hstep]
    have h1 : sk + 1 + rest.length = sk + (rest.length + 1) := by omega
    simp [h1]

/-- C2 (amended): upsert idempotence for schema-valid inputs.  For records
with pairwise-distinct normalized ids, each normalizing to a non-null
title, and whose non-null dois are pairwise distinct, processing them
against the empty store inserts all `N` and skips none; re-processing the
same records against the resulting store inserts none, skips all `N`, and
leaves every persisted row (in particular every immutable field)
byte-for-byte identical.  Neither run aborts its transaction. -/
theorem process_papers_batch_idempotent (papers : List RawPaper)
    (hsome : ∀ p ∈ papers, (MarketDataPipeline.extract_paper_id p).isSome)
    (htitle : ∀ p ∈ papers, (rowOf p).title.isSome)
    (hnodup : (papers.map tidOf).Nodup)
    (hdoinodup : (papers.filterMap fun r => (rowOf r).doi).Nodup) :
    MarketDataPipeline.process_papers_batch (fun _ => false) [] papers
        = (papers.map entryOf, false, ⟨papers.length, papers.length, 0, 0, 0⟩) ∧
      MarketDataPipeline.process_papers_batch (fun _ => false)
          (papers.map entryOf) papers
        = (papers.map entryOf, false, ⟨papers.length, 0, 0, papers.length, 0⟩) := by
  constructor
  · have h := process_go_all_new papers 1 [] ⟨papers.length, 0, 0, 0, 0⟩
      hsome htitle (fun p _ => rfl) (fun p _ d _ => rfl) hnodup hdoinodup
    simpa [MarketDataPipeline.process_papers_batch] using h
  · have h := process_go_all_existing papers 1 (papers.map entryOf)
      ⟨papers.length, 0, 0, 0, 0⟩ hsome
      (fun p hp => dbLookup_map_entryOf_isSome papers p hp)
    simpa [MarketDataPipeline.process_papers_batch] using h

/-- A schema-valid record (id and non-null title). -/
def pW1 : RawPaper :=
  { emptyRaw with id := .val "W1", title := .val "Paper W1" }

/-- A second schema-valid record with a distinct id. -/
def pW2 : RawPaper :=
  { emptyRaw with id := .val "W2", title := .val "Paper W2" }

/-- A record with an id but no title and no display name: it normalizes to
a NULL title, which the `papers` schema rejects (`title TEXT NOT NULL`). -/
def pNoTitle : RawPaper := { emptyRaw with id := .val "W3" }

/-- Counterexample for C2 as stated: a single record with a distinct id
but no title/display name.  The claim requires `inserted = 1, skipped = 0`
on the first run; the real insert statement violates `title TEXT NOT NULL`,
so the record is counted as an error, nothing is persisted, and the batch
transaction is aborted. -/
theorem process_papers_batch_null_title_cex :
    (MarketDataPipeline.process_papers_batch (fun _ => false) [] [pNoTitle]).2.2.inserted
        = 0 ∧
      (MarketDataPipeline.process_papers_batch (fun _ => false) [] [pNoTitle]).2.2.skipped
        = 0 ∧
      (MarketDataPipeline.process_papers_batch (fun _ => false) [] [pNoTitle]).2.2.errors
        = 1 ∧
      (MarketDataPipeline.process_papers_batch (fun _ => false) [] [pNoTitle]).1 = [] := by
  decide

/-- Witness for C2 (amended): the double run evaluated on two concrete
schema-valid records. -/
theorem process_papers_batch_idempotent_witness :
    MarketDataPipeline.process_papers_batch (fun _ => false) [] [pW1, pW2]
        = ([pW1, pW2].map entryOf, false, ⟨2, 2, 0, 0, 0⟩) ∧
      MarketDataPipeline.process_papers_batch (fun _ => false)
          ([pW1, pW2].map entryOf) [pW1, pW2]
        = ([pW1, pW2].map entryOf, false, ⟨2, 0, 0, 2, 0⟩) := by
  have h := process_papers_batch_idempotent [pW1, pW2] (by decide) (by decide)
    (by decide) (by decide)
  simpa using h

/-- C3 (amended): conflict policy.  Upserting a row whose id is already
stored and whose normalized title is non-null (so the statement satisfies
`title TEXT NOT NULL`) succeeds and leaves the row present with exactly the
conflict-clause result: the volatile fields (citation count and the other
fields named in the `ON CONFLICT` clause) take the incoming values, while
`doi` and every field outside the clause (identifiers, journal metadata,
topic classification, OA fields, dates, flags) keep the stored values —
even when the incoming `doi` differs. -/
theorem insert_paper_conflict_updates_mutable_only (db : Store)
    (old incoming : Transformed)
    (h : dbLookup db incoming.id = some old)
    (htitle : incoming.title.isSome) :
    MarketDataPipeline.insert_paper db incoming
        = (dbUpdate db incoming.id (MarketDataPipeline.applyOnConflict old incoming),
           true) ∧
      dbLookup (MarketDataPipeline.insert_paper db incoming).1 incoming.id
        = some (MarketDataPipeline.applyOnConflict old incoming) ∧
      (MarketDataPipeline.applyOnConflict old incoming).title = incoming.title ∧
      (MarketDataPipeline.applyOnConflict old incoming).display_name = incoming.display_name ∧
      (MarketDataPipeline.applyOnConflict old incoming).publication_year = incoming.publication_year ∧
      (MarketDataPipeline.applyOnConflict old incoming).publication_date = incoming.publication_date ∧
      (MarketDataPipeline.applyOnConflict old incoming).cited_by_count = incoming.cited_by_count ∧
      (MarketDataPipeline.applyOnConflict old incoming).referenced_works_count = incoming.referenced_works_count ∧
      (MarketDataPipeline.applyOnConflict old incoming).authors_count = incoming.authors_count ∧
      (MarketDataPipeline.applyOnConflict old incoming).countries_distinct_count = incoming.countries_distinct_count ∧
      (MarketDataPipeline.applyOnConflict old incoming).institutions_distinct_count = incoming.institutions_distinct_count ∧
      (MarketDataPipeline.applyOnConflict old incoming).citation_normalized_percentile = incoming.citation_normalized_percentile ∧
      (MarketDataPipeline.applyOnConflict old incoming).is_in_top_1_percent = incoming.is_in_top_1_percent ∧
      (MarketDataPipeline.applyOnConflict old incoming).is_in_top_10_percent = incoming.is_in_top_10_percent ∧
      (MarketDataPipeline.applyOnConflict old incoming).id = old.id ∧
      (MarketDataPipeline.applyOnConflict old incoming).doi = old.doi ∧
      (MarketDataPipeline.applyOnConflict old incoming).created_date = old.created_date ∧
      (MarketDataPipeline.applyOnConflict old incoming).updated_date = old.updated_date ∧
      (MarketDataPipeline.applyOnConflict old incoming).language = old.language ∧
      (MarketDataPipeline.applyOnConflict old incoming).paper_type = old.paper_type ∧
      (MarketDataPipeline.applyOnConflict old incoming).type_crossref = old.type_crossref ∧
      (MarketDataPipeline.applyOnConflict old incoming).is_open_access = old.is_open_access ∧
      (MarketDataPipeline.applyOnConflict old incoming).oa_status = old.oa_status ∧
      (MarketDataPipeline.applyOnConflict old incoming).oa_url = old.oa_url ∧
      (MarketDataPipeline.applyOnConflict old incoming).journal_name = old.journal_name ∧
      (MarketDataPipeline.applyOnConflict old incoming).journal_issn = old.journal_issn ∧
      (MarketDataPipeline.applyOnConflict old incoming).journal_is_oa = old.journal_is_oa ∧
      (MarketDataPipeline.applyOnConflict old incoming).journal_is_indexed_scopus = old.journal_is_indexed_scopus ∧
      (MarketDataPipeline.applyOnConflict old incoming).journal_is_core = old.journal_is_core ∧
      (MarketDataPipeline.applyOnConflict old incoming).journal_host_organization = old.journal_host_organization ∧
      (MarketDataPipeline.applyOnConflict old incoming).primary_topic_name = old.primary_topic_name ∧
      (MarketDataPipeline.applyOnConflict old incoming).primary_topic_score = old.primary_topic_score ∧
      (MarketDataPipeline.applyOnConflict old incoming).primary_subfield_name = old.primary_subfield_name ∧
      (MarketDataPipeline.applyOnConflict old incoming).primary_field_name = old.primary_field_name ∧
      (MarketDataPipeline.applyOnConflict old incoming).primary_domain_name = old.primary_domain_name ∧
      (MarketDataPipeline.applyOnConflict old incoming).is_retracted = old.is_retracted ∧
      (MarketDataPipeline.applyOnConflict old incoming).is_paratext = old.is_paratext ∧
      (MarketDataPipeline.applyOnConflict old incoming).has_fulltext = old.has_fulltext := by
  obtain ⟨tt, htt⟩ := Option.isSome_iff_exists.mp htitle
  have hviol : MarketDataPipeline.insertViolation db incoming = false := by
    simp [MarketDataPipeline.insertViolation, htt, h]
  have hmain : MarketDataPipeline.insert_paper db incoming
      = (dbUpdate db incoming.id (MarketDataPipeline.applyOnConflict old incoming),
         true) := by
    simp [MarketDataPipeline.insert_paper, hviol, h]
  refine ⟨hmain, ?_, rfl, rfl, rfl, rfl, rfl, rfl, rfl, rfl, rfl, rfl, rfl, rfl,
    rfl, rfl, rfl, rfl, rfl, rfl, rfl, rfl, rfl, rfl, rfl, rfl, rfl, rfl, rfl,
    rfl, rfl, rfl, rfl, rfl, rfl, rfl, rfl, rfl⟩
  rw [hmain]
  exact dbLookup_dbUpdate_self db incoming.id _ (by simp [h])

/-- A schema-valid stored version of `W1` with citation count 5 (and a
NULL doi). -/
def pW1t5 : RawPaper :=
  { emptyRaw with id := .val "W1", title := .val "Paper W1", cited_by_count := .val 5 }

/-- A schema-valid incoming version of `W1` with citation count 7 and a
new doi. -/
def pW1t7d : RawPaper :=
  { emptyRaw with
      id := .val "W1"
      title := .val "Paper W1 v2"
      cited_by_count := .val 7
      doi := .val "DOInew" }

/-- An incoming version of `W1` with citation count 7 and a new doi but no
title: its insert statement violates `title TEXT NOT NULL`. -/
def pW1c7d : RawPaper :=
  { emptyRaw with id := .val "W1", cited_by_count := .val 7, doi := .val "DOInew" }

/-- Witness for C3: re-upserting `W1` with citation count 7 and a changed
doi updates the stored count to 7 and keeps the stored doi (null). -/
theorem insert_paper_conflict_witness :
    dbLookup (MarketDataPipeline.insert_paper [("W1", rowOf pW1t5)] (rowOf pW1t7d)).1 "W1"
        = some (MarketDataPipeline.applyOnConflict (rowOf pW1t5) (rowOf pW1t7d)) ∧
      (MarketDataPipeline.applyOnConflict (rowOf pW1t5) (rowOf pW1t7d)).cited_by_count
        = some 7 ∧
      (MarketDataPipeline.applyOnConflict (rowOf pW1t5) (rowOf pW1t7d)).doi = none ∧
      (rowOf pW1t7d).doi = some "DOInew" := by
  have h := insert_paper_conflict_updates_mutable_only [("W1", rowOf pW1t5)]
    (rowOf pW1t5) (rowOf pW1t7d) (by decide) (by decide)
  exact ⟨h.2.1, by decide, by decide, by decide⟩

/-- Counterexample for C3 as stated: the claim quantifies over every
re-upserted record, but an incoming row whose normalized title is null
makes the real statement violate `title TEXT NOT NULL`; `insert_paper`
returns `False` and the stored row — including its `cited_by_count` — is
left entirely untouched instead of updated. -/
theorem insert_paper_null_title_conflict_cex :
    MarketDataPipeline.insert_paper [("W1", rowOf pW1t5)] (rowOf pW1c7d)
        = ([("W1", rowOf pW1t5)], false) ∧
      (rowOf pW1c7d).id = "W1" ∧
      (rowOf pW1c7d).cited_by_count = some 7 ∧
      (rowOf pW1c7d).doi = some "DOInew" ∧
      (rowOf pW1t5).cited_by_count = some 5 := by
  decide

/-- The commit loop stopped by its first failing commit: every batch before
it is processed and committed, the failing batch's writes are discarded,
and no later batch is touched. -/
lemma uploadAux_first_fail (cf : Nat → Bool) :
    ∀ (bs : List (List RawPaper)) (k i : Nat) (db : Store),
      k < bs.length → (∀ j, j < k → cf (i + j) = false) → cf (i + k) = true →
      MarketDataPipeline.uploadAux cf i db bs
        = (MarketDataPipeline.commitBatches db (bs.take k), false) := by
  intro bs
  induction bs with
  | nil =>
    intro k i db hk _ _
    simp at hk
  | cons b rest ih =>
    intro k i db hk hpre hfail
    cases k with
    | zero =>
      have hcf : cf i = true := by simpa using hfail
      simp [MarketDataPipeline.uploadAux, hcf, MarketDataPipeline.commitBatches]
    | succ k' =>
      have hcf : cf i = false := by simpa using hpre 0 (Nat.succ_pos k')
      have hpre' : ∀ j, j < k' → cf (i + 1 + j) = false := by
        intro j hj
        have hh := hpre (j + 1) (by omega)
        rwa [show i + (j + 1) = i + 1 + j by omega] at hh
      have hfail' : cf (i + 1 + k') = true := by
        rwa [show i + (k' + 1) = i + 1 + k' by omega] at hfail
      have hrec := ih k' (i + 1)
        (if (MarketDataPipeline.process_papers_batch (fun _ => false) db b).2.1 then db
          else (MarketDataPipeline.process_papers_batch (fun _ => false) db b).1)
        (by simpa using hk) hpre' hfail'
      simp only [MarketDataPipeline.uploadAux, hcf, Bool.false_eq_true, if_false,
        hrec, List.take_succ_cons]
      simp [MarketDataPipeline.commitBatches]

/-- C5 (amended): a failure while committing one batch aborts that batch
(its records are rolled back) and the upload stops with a failure result:
batches committed before the failing one remain persisted, and the batches
after it are *not* processed or committed. -/
theorem upload_commit_failure_isolation (cf : Nat → Bool) (db : Store)
    (papers : List RawPaper) (batchSize k : Nat)
    (hk : k < (MarketDataPipeline.chunkList batchSize papers).length)
    (hpre : ∀ j, j < k → cf j = false) (hfail : cf k = true) :
    MarketDataPipeline.upload_papers_to_database cf db papers batchSize
      = (MarketDataPipeline.commitBatches db
          ((MarketDataPipeline.chunkList batchSize papers).take k), false) := by
  have h := uploadAux_first_fail cf (MarketDataPipeline.chunkList batchSize papers)
    k 0 db hk (fun j hj => by simpa using hpre j hj) (by simpa using hfail)
  simpa [MarketDataPipeline.upload_papers_to_database] using h

/-- Witness for C5 (amended): two records in batches of one, with the first
commit failing — nothing is persisted and the upload reports failure. -/
theorem upload_commit_failure_isolation_witness :
    MarketDataPipeline.upload_papers_to_database (fun j => j == 0) [] [pW1, pW2] 1
      = ([], false) := by
  have h := upload_commit_failure_isolation (fun j => j == 0) [] [pW1, pW2] 1 0
    (by decide) (fun j hj => absurd hj (Nat.not_lt_zero j)) (by decide)
  simpa using h

/-- Counterexample for C5 as stated: with two records in batches of one and
the first commit failing, the second batch is never processed or committed
— its record `W2` is absent from the final store (the claim requires the
batches after the failing one to still be processed and committed). -/
theorem upload_claim_batches_continue_cex :
    dbLookup (MarketDataPipeline.upload_papers_to_database (fun j => j == 0)
        [] [pW1, pW2] 1).1 "W2" = none ∧
      (MarketDataPipeline.upload_papers_to_database (fun j => j == 0)
        [] [pW1, pW2] 1).1 = [] ∧
      (MarketDataPipeline.upload_papers_to_database (fun j => j == 0)
        [] [pW1, pW2] 1).2 = false := by
  decide
